import Mathlib

/-!
Verification development for the CaptureRateTest repository
(src/CaptureRateTest/main.cpp).

The program parses command-line options into an `Options` value
(a capture subject plus an interval), resolves the subject into a
capturable surface (a monitor handle by index, or a window handle by
interactive title search), and then drives a capture session on a
dedicated worker queue: a frame pool of capacity 1, a frame-arrival
handler that stores the latest frame, and a repeating timer whose tick
closes the stored frame.  Shutdown posts a work item that stops the
timer, closes the pool and session, and signals the main thread.

This file shallow-embeds those pieces:
  * `stoi` / `ParseNumberString` model `std::stoi` (base 10, leading
    whitespace, optional sign, int range check) and the cast of its
    result to `uint32_t`;
  * `GetFlag` / `GetFlagValue` model the external flag tokenizer
    (`robmikh::common::wcli::impl`): a flag is present when some
    argument equals it, and a flag value is the token following the
    first occurrence of the flag or its alias (empty when absent);
  * `ParseOptions` embeds `ParseOptions` from main.cpp, including the
    monitor-index branch exactly as written (it re-parses the interval
    string and assigns the result to the interval);
  * `GetWindowToCapture` / `selectionLoop` embed the interactive
    window-disambiguation loop, with console input modelled as a list
    of lines and an uncaught `std::stoi` exception as an explicit
    outcome;
  * `CreateCaptureSourceFromMonitorIndex` embeds the monitor-index
    bounds check, with the display enumeration passed as a list;
  * `onFrameArrived` / `onTimerTick` embed the two worker-queue
    callbacks as transitions on the capture-thread state;
  * `startupTrace`, `shutdownTrace` and `mainShutdownTrace` record the
    straight-line startup and shutdown sequences as operation traces.
-/

/-! ## std::stoi and ParseNumberString -/

/-- Whitespace characters skipped by `std::stoi` (default C locale). -/
def isCSpace (c : Char) : Bool :=
  c = ' ' || c = '\t' || c = '\n' || c = '\x0b' || c = '\x0c' || c = '\r'

/-- Value of a base-10 digit string (most significant digit first). -/
def digitsToNat (ds : List Char) : Nat :=
  ds.foldl (fun acc c => acc * 10 + (c.toNat - 48)) 0

/-- Model of `std::stoi` on a wide string: skip leading whitespace, read an
optional sign and base-10 digits; `none` when no digits can be read
(`std::invalid_argument`) or the value is outside the `int` range
(`std::out_of_range`).  Trailing non-digit characters are ignored, as in
`std::stoi`. -/
def stoi (s : String) : Option Int :=
  let cs := s.data.dropWhile isCSpace
  let signAndRest : Bool × List Char :=
    match cs with
    | '-' :: rest => (true, rest)
    | '+' :: rest => (false, rest)
    | _ => (false, cs)
  let ds := signAndRest.2.takeWhile Char.isDigit
  if ds.isEmpty then none
  else
    let magnitude : Int := Int.ofNat (digitsToNat ds)
    let value : Int := if signAndRest.1 then -magnitude else magnitude
    if value < -(2 ^ 31) ∨ 2 ^ 31 - 1 < value then none else some value

/-- `ParseNumberString` from main.cpp: `std::stoi` wrapped in try/catch,
its `int` result converted to `uint32_t` (reduction modulo 2^32). -/
def ParseNumberString (numberString : String) : Option Nat :=
  (stoi numberString).map (fun v => (v % (2 ^ 32 : Int)).toNat)

/-! ## Flag tokenizer (external library robmikh::common::wcli) -/

/-- Modelled external collaborator `impl::GetFlag`: the flag is present
when some argument equals it. -/
def GetFlag (args : List String) (flag : String) : Bool :=
  args.contains flag

/-- Modelled external collaborator `impl::GetFlagValue`: the token
following the first argument equal to the flag or its alias; empty
string when the flag is absent or has no following token. -/
def GetFlagValue (args : List String) (flag alt : String) : String :=
  match args with
  | [] => ""
  | a :: rest =>
    if a = flag ∨ a = alt then
      match rest with
      | [] => ""
      | v :: _ => v
    else GetFlagValue rest flag alt

/-! ## Options data model and ParseOptions -/

/-- `CaptureSubject` from main.cpp: a variant of `MonitorCaptureSubject`
(`uint32_t MonitorIndex`) and `WindowCaptureSubject`
(`std::wstring TitleQuery`). -/
inductive CaptureSubject where
  | monitor (monitorIndex : Nat)
  | window (titleQuery : String)
deriving DecidableEq, Repr

/-- `Options` from main.cpp: a subject and an interval in milliseconds. -/
structure Options where
  subject : CaptureSubject
  intervalInMs : Nat
deriving DecidableEq, Repr

/-- The distinct parse failures of `ParseOptions`, identified by the
message printed before returning `nullopt` with `error = true`. -/
inductive ParseError where
  | invalidInterval
  | conflictingSubjectFlags
  | invalidMonitorIndex
deriving DecidableEq, Repr

/-- Outcome of `ParseOptions`: `help` is `nullopt` with `error = false`
(wmain exits 0), `err` is `nullopt` with `error = true` (wmain exits 1),
`ok` carries the parsed `Options`. -/
inductive ParseResult where
  | help
  | err (e : ParseError)
  | ok (options : Options)
deriving DecidableEq, Repr

/-- Body of `ParseOptions` after the three flag values have been
extracted.  Transliterated from main.cpp lines 290-336; in particular the
monitor branch is kept exactly as written in the source: when the monitor
flag value is non-empty it parses `intervalString` (not `monitorString`)
and assigns the result to `interval` (not `monitorIndex`), so
`monitorIndex` is always 0. -/
def parseWithFlags (intervalString monitorString windowString : String) :
    ParseResult :=
  let intervalStep : Except ParseError Nat :=
    if intervalString.isEmpty then .ok 1000
    else
      match ParseNumberString intervalString with
      | some v => .ok v
      | none => .error .invalidInterval
  match intervalStep with
  | .error e => .err e
  | .ok interval =>
    if !monitorString.isEmpty && !windowString.isEmpty then
      .err .conflictingSubjectFlags
    else
      let monitorIndex : Nat := 0
      let monitorStep : Except ParseError Nat :=
        if monitorString.isEmpty then .ok interval
        else
          match ParseNumberString intervalString with
          | some v => .ok v
          | none => .error .invalidMonitorIndex
      match monitorStep with
      | .error e => .err e
      | .ok interval2 =>
        let subject :=
          if windowString.isEmpty then CaptureSubject.monitor monitorIndex
          else CaptureSubject.window windowString
        .ok ⟨subject, interval2⟩

/-- `ParseOptions` from main.cpp.  `args` is the argument list without the
program name (the source constructs `args(argv + 1, argv + argc)`).  A
help flag short-circuits to usage output with `error = false`. -/
def ParseOptions (args : List String) : ParseResult :=
  if GetFlag args "-help" || GetFlag args "/?" then .help
  else
    parseWithFlags
      (GetFlagValue args "-interval" "-i")
      (GetFlagValue args "-monitor" "-m")
      (GetFlagValue args "-window" "-w")

/-! ## Monitor-index resolution -/

/-- Platform monitor handle (`HMONITOR`), modelled as an opaque number. -/
abbrev HMONITOR : Type := Nat

/-- Platform window handle (`HWND`), modelled as an opaque number. -/
abbrev HWND : Type := Nat

/-- `CaptureItemSource` from main.cpp: a variant of
`MonitorCaptureItemSource` and `WindowCaptureItemSource`. -/
inductive CaptureItemSource where
  | monitor (handle : HMONITOR)
  | window (handle : HWND)
deriving DecidableEq, Repr

/-- `CreateCaptureSourceFromMonitorIndex` from main.cpp.  The display
enumeration (`EnumDisplayMonitors`, an external collaborator) is passed
in as the list `monitors` in enumeration order; the function returns the
indexed handle when `monitorIndex < monitors.size()` and otherwise prints
"Monitor index is out of bounds!" and returns `nullopt`. -/
def CreateCaptureSourceFromMonitorIndex (monitors : List HMONITOR)
    (monitorIndex : Nat) : Option CaptureItemSource :=
  if h : monitorIndex < monitors.length then
    some (.monitor (monitors.get ⟨monitorIndex, h⟩))
  else
    none

/-! ## Interactive window selection -/

/-- `util::WindowInfo` as used by main.cpp: a window handle and title. -/
structure WindowInfo where
  windowHandle : HWND
  title : String
deriving DecidableEq, Repr

/-- Whether the selection string starts with `q` or `Q`: main.cpp checks
`selectionString.rfind(L"q", 0) == 0 || selectionString.rfind(L"Q", 0) == 0`,
i.e. an occurrence of the one-character pattern at position 0. -/
def startsWithQChar (s : String) : Bool :=
  match s.data with
  | [] => false
  | c :: _ => c = 'q' || c = 'Q'

/-- Outcome of `GetWindowToCapture`, with console input modelled as a
list of lines.  `window` is a returned selection, `cancelled` is the
`nullopt` return for a q/Q input, `stoiException` records the uncaught
`std::invalid_argument`/`std::out_of_range` escaping from the bare
`std::stoi` call, `invalidArgument` is the `hresult_invalid_argument`
thrown for an empty window list, and `noMoreInput` means the modelled
input lines ran out while the loop still wanted another one. -/
inductive GetWindowResult where
  | window (w : WindowInfo)
  | cancelled
  | stoiException
  | invalidArgument
  | noMoreInput
deriving DecidableEq, Repr

/-- The `do { ... } while (true)` selection loop of `GetWindowToCapture`
(main.cpp lines 228-248), one recursive step per prompted input line:
a line starting with q/Q returns `nullopt`; otherwise the line goes to
`std::stoi` with no surrounding try/catch, so a non-numeric or
out-of-range line throws; an in-range index selects that window; any
other parsed value prints "Invalid input" and re-prompts. -/
def selectionLoop (windows : List WindowInfo) :
    List String → GetWindowResult
  | [] => .noMoreInput
  | s :: rest =>
    if startsWithQChar s then .cancelled
    else
      match stoi s with
      | none => .stoiException
      | some selection =>
        if h : 0 ≤ selection ∧ selection.toNat < windows.length then
          .window (windows.get ⟨selection.toNat, h.2⟩)
        else selectionLoop windows rest

/-- `GetWindowToCapture` from main.cpp: throws for an empty list,
returns the single candidate without prompting, and otherwise runs the
interactive selection loop over the modelled input lines. -/
def GetWindowToCapture (windows : List WindowInfo)
    (inputs : List String) : GetWindowResult :=
  match windows with
  | [] => .invalidArgument
  | w0 :: rest =>
    if rest.isEmpty then .window w0
    else selectionLoop (w0 :: rest) inputs

/-! ## Capture-thread state: frame arrival and timer tick -/

/-- A `Direct3D11CaptureFrame` as far as the program observes it: an
identity and whether `Close` has been called on it. -/
structure CaptureFrame where
  id : Nat
  closed : Bool
deriving DecidableEq, Repr

/-- The worker-queue state the two callbacks touch: the captured `frame`
local (null, i.e. `none`, initially) and, for specification purposes, the
list of frame ids on which `Close` has been called, most recent first. -/
structure CaptureThreadState where
  frame : Option CaptureFrame
  closedLog : List Nat
deriving DecidableEq, Repr

/-- The `FrameArrived` handler (main.cpp lines 105-108):
`frame = sender.TryGetNextFrame()`.  The previous reference is
overwritten without being closed; `TryGetNextFrame` may return null, so
the new value is an `Option`. -/
def onFrameArrived (s : CaptureThreadState)
    (nextFrame : Option CaptureFrame) : CaptureThreadState :=
  { s with frame := nextFrame }

/-- The timer `Tick` handler (main.cpp lines 114-120):
`if (frame != nullptr) { frame.Close(); }`.  The stored reference is not
assigned afterwards, so it keeps pointing at the now-closed frame. -/
def onTimerTick (s : CaptureThreadState) : CaptureThreadState :=
  match s.frame with
  | some f =>
    { frame := some { f with closed := true }, closedLog := f.id :: s.closedLog }
  | none => s

/-! ## Startup and shutdown sequences -/

/-- Operations performed by the startup work item enqueued on the worker
queue (main.cpp lines 96-125), in program order. -/
inductive CaptureOp where
  | createItem
  | createFramePool (numberOfBuffers : Nat)
  | createSession
  | registerFrameArrived
  | createTimer
  | setTimerInterval (ms : Nat)
  | setTimerRepeating (repeating : Bool)
  | registerTick
  | startTimer
  | startCapture
  | signalEvent
deriving DecidableEq, Repr

/-- The startup work item as the sequence of operations it performs:
create the item, create the frame pool with `numberOfBuffers = 1`,
create the session, hook `FrameArrived`, create and configure the timer,
hook `Tick`, `timer.Start()`, `session.StartCapture()`, then signal the
event the main thread is waiting on. -/
def startupTrace (interval : Nat) : List CaptureOp :=
  [.createItem, .createFramePool 1, .createSession, .registerFrameArrived,
   .createTimer, .setTimerInterval interval, .setTimerRepeating true,
   .registerTick, .startTimer, .startCapture, .signalEvent]

/-- The frame-pool capacities requested anywhere in a startup trace. -/
def poolCapacities (ops : List CaptureOp) : List Nat :=
  ops.filterMap (fun op =>
    match op with
    | .createFramePool n => some n
    | _ => none)

/-- Operations performed by the shutdown work item (main.cpp
lines 134-140). -/
inductive ShutdownOp where
  | stopTimer
  | closeFramePool
  | closeSession
  | signalEvent
deriving DecidableEq, Repr

/-- The shutdown work item as the sequence of operations it performs:
`timer.Stop(); framePool.Close(); session.Close();
captureThreadEvent.SetEvent();` in that order. -/
def shutdownTrace : List ShutdownOp :=
  [.stopTimer, .closeFramePool, .closeSession, .signalEvent]

/-- Observable session resources at shutdown time. -/
structure TeardownState where
  timerRunning : Bool
  framePoolOpen : Bool
  sessionOpen : Bool
  shutdownEventSignaled : Bool
deriving DecidableEq, Repr

/-- Effect of one shutdown operation on the session resources. -/
def applyShutdownOp (s : TeardownState) : ShutdownOp → TeardownState
  | .stopTimer => { s with timerRunning := false }
  | .closeFramePool => { s with framePoolOpen := false }
  | .closeSession => { s with sessionOpen := false }
  | .signalEvent => { s with shutdownEventSignaled := true }

/-- Run a list of shutdown operations in order from a state. -/
def runShutdownOps (s : TeardownState) (ops : List ShutdownOp) :
    TeardownState :=
  ops.foldl applyShutdownOp s

/-- Actions on the main thread after the user presses ENTER (main.cpp
lines 133-143), in program order: reset the event, enqueue the shutdown
work item, block on the event, print the shutdown notice, then await
`controller.ShutdownQueueAsync()`. -/
inductive MainOp where
  | resetEvent
  | enqueueShutdownWork
  | waitForEvent
  | printShutdownNotice
  | awaitQueueShutdown
deriving DecidableEq, Repr

/-- The main thread's shutdown path as the sequence of its actions. -/
def mainShutdownTrace : List MainOp :=
  [.resetEvent, .enqueueShutdownWork, .waitForEvent, .printShutdownNotice,
   .awaitQueueShutdown]

/-! ## Claims about ParseOptions -/

/-- The empty string is empty (computation of `String.isEmpty`). -/
theorem empty_string_isEmpty : ("" : String).isEmpty = true := rfl

/-- C4 counterexample: the claim says an interval value of `0` or a
negative value fails with `InvalidInterval`, but `ParseOptions` accepts
`"0"` (yielding interval 0) and accepts `"-5"` (the `int` result of
`std::stoi` wraps to 4294967291 when stored into `uint32_t`). -/
theorem c4_zero_and_negative_accepted_cex :
    ParseOptions ["-interval", "0"] = .ok ⟨.monitor 0, 0⟩
    ∧ ParseOptions ["-interval", "-5"] = .ok ⟨.monitor 0, 4294967291⟩ := by
  exact ⟨by decide, by decide⟩

/-- C4 (amended): for every supplied interval value string, if
`std::stoi` parses it to `n` (any `int`, including `0` and negatives),
parsing succeeds and the interval field is `n` reduced modulo 2^32;
parsing fails with `InvalidInterval` exactly when `std::stoi` throws
(non-numeric or out of `int` range).  Stated for argument lists with no
help flag and no monitor/window conflict. -/
theorem c4_interval_parse_amended (args : List String) (n : Int)
    (hHelp1 : GetFlag args "-help" = false)
    (hHelp2 : GetFlag args "/?" = false)
    (hNE : (GetFlagValue args "-interval" "-i").isEmpty = false)
    (hNoConf : (GetFlagValue args "-monitor" "-m").isEmpty = true
      ∨ (GetFlagValue args "-window" "-w").isEmpty = true) :
    (stoi (GetFlagValue args "-interval" "-i") = some n →
      ∃ subj, ParseOptions args = .ok ⟨subj, (n % (2 ^ 32 : Int)).toNat⟩)
    ∧ (stoi (GetFlagValue args "-interval" "-i") = none →
      ParseOptions args = .err .invalidInterval) := by
  constructor
  · intro hn
    rcases hNoConf with hM | hW
    · cases hw : (GetFlagValue args "-window" "-w").isEmpty
      · exact ⟨.window (GetFlagValue args "-window" "-w"),
          by simp [ParseOptions, hHelp1, hHelp2, parseWithFlags, hNE, hM, hw,
            ParseNumberString, hn]⟩
      · exact ⟨.monitor 0,
          by simp [ParseOptions, hHelp1, hHelp2, parseWithFlags, hNE, hM, hw,
            ParseNumberString, hn]⟩
    · cases hm : (GetFlagValue args "-monitor" "-m").isEmpty
      · exact ⟨.monitor 0,
          by simp [ParseOptions, hHelp1, hHelp2, parseWithFlags, hNE, hW, hm,
            ParseNumberString, hn]⟩
      · exact ⟨.monitor 0,
          by simp [ParseOptions, hHelp1, hHelp2, parseWithFlags, hNE, hW, hm,
            ParseNumberString, hn]⟩
  · intro hn
    simp [ParseOptions, hHelp1, hHelp2, parseWithFlags, hNE,
      ParseNumberString, hn]

/-- C4 witness: `-interval 500` parses to interval 500 (with the default
monitor subject), via `c4_interval_parse_amended`. -/
theorem c4_interval_parse_amended_w :
    ∃ subj, ParseOptions ["-interval", "500"]
      = .ok ⟨subj, ((500 : Int) % (2 ^ 32 : Int)).toNat⟩ :=
  (c4_interval_parse_amended ["-interval", "500"] 500 (by decide) (by decide)
    (by decide) (Or.inl (by decide))).1 (by decide)

/-- C2: the code contradicts its own usage text ("-monitor [value]
Specify the monitor to capture via index"): the monitor branch of
`ParseOptions` parses the interval string instead of the monitor string
and assigns the result to the interval, leaving the monitor index 0.
So `-monitor 3` alone fails with "Invalid monitor index specified!"
(the absent interval string does not parse), and
`-interval 500 -monitor 3` succeeds but with subject index 0, not 3. -/
theorem c2_monitor_index_ignored :
    ParseOptions ["-monitor", "3"] = .err .invalidMonitorIndex
    ∧ ParseOptions ["-interval", "500", "-monitor", "3"]
        = .ok ⟨.monitor 0, 500⟩ := by
  exact ⟨by decide, by decide⟩

/-- C6: with no help flag, a valid-or-absent interval value, and both the
monitor and window flags carrying non-empty values, `ParseOptions` fails
with the conflicting-flags error; the argument list is universally
quantified, so the order of the two flags is irrelevant. -/
theorem c6_conflicting_subject_flags (args : List String)
    (hHelp1 : GetFlag args "-help" = false)
    (hHelp2 : GetFlag args "/?" = false)
    (hInt : GetFlagValue args "-interval" "-i" = ""
      ∨ ∃ v, ParseNumberString (GetFlagValue args "-interval" "-i") = some v)
    (hMon : (GetFlagValue args "-monitor" "-m").isEmpty = false)
    (hWin : (GetFlagValue args "-window" "-w").isEmpty = false) :
    ParseOptions args = .err .conflictingSubjectFlags := by
  rcases hInt with h | ⟨v, hv⟩
  · simp [ParseOptions, hHelp1, hHelp2, parseWithFlags, h, hMon, hWin,
      empty_string_isEmpty]
  · cases hE : (GetFlagValue args "-interval" "-i").isEmpty
    · simp [ParseOptions, hHelp1, hHelp2, parseWithFlags, hE, hv, hMon, hWin]
    · simp [ParseOptions, hHelp1, hHelp2, parseWithFlags, hE, hMon, hWin]

/-- C6 witness: both flag orders fail with the conflict error, via
`c6_conflicting_subject_flags`. -/
theorem c6_conflicting_subject_flags_w :
    ParseOptions ["-monitor", "0", "-window", "t"]
      = .err .conflictingSubjectFlags
    ∧ ParseOptions ["-window", "t", "-monitor", "0"]
      = .err .conflictingSubjectFlags :=
  ⟨c6_conflicting_subject_flags ["-monitor", "0", "-window", "t"]
      (by decide) (by decide) (Or.inl (by decide)) (by decide) (by decide),
   c6_conflicting_subject_flags ["-window", "t", "-monitor", "0"]
      (by decide) (by decide) (Or.inl (by decide)) (by decide) (by decide)⟩

/-- C10: supplying a monitor flag value without an interval flag (and no
window flag or help flag) always fails: the monitor branch re-parses the
empty interval string, `std::stoi` throws, and `ParseOptions` reports
"Invalid monitor index specified!" even though the supplied monitor
value itself may be a perfectly valid integer. -/
theorem c10_monitor_without_interval_fails (args : List String)
    (hHelp1 : GetFlag args "-help" = false)
    (hHelp2 : GetFlag args "/?" = false)
    (hMon : (GetFlagValue args "-monitor" "-m").isEmpty = false)
    (hInt : GetFlagValue args "-interval" "-i" = "")
    (hWin : GetFlagValue args "-window" "-w" = "") :
    ParseOptions args = .err .invalidMonitorIndex := by
  simp [ParseOptions, hHelp1, hHelp2, parseWithFlags, hInt, hWin, hMon,
    ParseNumberString, stoi, empty_string_isEmpty]

/-- C10 witness: `-m abc` (monitor alias with a value, no interval flag)
fails with the invalid-monitor-index error, via
`c10_monitor_without_interval_fails`. -/
theorem c10_monitor_without_interval_fails_w :
    ParseOptions ["-m", "abc"] = .err .invalidMonitorIndex :=
  c10_monitor_without_interval_fails ["-m", "abc"]
    (by decide) (by decide) (by decide) (by decide) (by decide)

/-! ## Claims about subject resolution -/

/-- C5: given a display enumeration of length `k` and a requested index
`i` (a `uint32_t`, hence never negative), resolution returns the `i`-th
monitor handle exactly when `i < k`, and otherwise returns `nullopt`
after printing "Monitor index is out of bounds!". -/
theorem c5_monitor_index_resolution (monitors : List HMONITOR) (i : Nat) :
    (∀ h : i < monitors.length,
      CreateCaptureSourceFromMonitorIndex monitors i
        = some (.monitor (monitors.get ⟨i, h⟩)))
    ∧ (monitors.length ≤ i →
      CreateCaptureSourceFromMonitorIndex monitors i = none) := by
  constructor
  · intro h
    unfold CreateCaptureSourceFromMonitorIndex
    rw [dif_pos h]
  · intro h
    unfold CreateCaptureSourceFromMonitorIndex
    rw [dif_neg (by omega)]

/-- C5 witness: with two monitors, index 1 resolves to the second handle
and index 5 is rejected, via `c5_monitor_index_resolution`. -/
theorem c5_monitor_index_resolution_w :
    CreateCaptureSourceFromMonitorIndex [5, 7] 1 = some (.monitor 7)
    ∧ CreateCaptureSourceFromMonitorIndex [5, 7] 5 = none :=
  ⟨(c5_monitor_index_resolution [5, 7] 1).1 (by decide),
   (c5_monitor_index_resolution [5, 7] 5).2 (by decide)⟩

/-- C9: during multi-match disambiguation, any input line whose first
character is `q` or `Q` — not only the exact string "q" — cancels the
selection, because the source checks `rfind(L"q", 0) == 0`, i.e. an
occurrence of the one-character pattern at position 0. -/
theorem c9_q_input_cancels (windows : List WindowInfo) (s : String)
    (rest : List String)
    (hLen : 1 < windows.length)
    (hq : startsWithQChar s = true) :
    GetWindowToCapture windows (s :: rest) = .cancelled := by
  match windows with
  | [] => simp at hLen
  | [w0] => simp at hLen
  | w0 :: w1 :: ws =>
    simp [GetWindowToCapture, selectionLoop, hq]

/-- C9 witness: the input "quit" at the first prompt cancels a
two-candidate selection, via `c9_q_input_cancels`. -/
theorem c9_q_input_cancels_w :
    GetWindowToCapture [⟨1, "Window A"⟩, ⟨2, "Window B"⟩] ["quit"]
      = .cancelled :=
  c9_q_input_cancels [⟨1, "Window A"⟩, ⟨2, "Window B"⟩] "quit" []
    (by decide) (by decide)

/-- C3: the selection loop calls `std::stoi` with no surrounding
try/catch (unlike `ParseNumberString` elsewhere in the same file), so a
non-numeric input such as "abc" throws `std::invalid_argument`, which
escapes the loop uncaught instead of producing the "Invalid input"
re-prompt; the subsequent in-range line "0" is never consumed. -/
theorem c3_nonnumeric_selection_throws :
    GetWindowToCapture [⟨1, "Window A"⟩, ⟨2, "Window B"⟩] ["abc", "0"]
      = .stoiException := by
  decide

/-! ## Claims about the capture worker and teardown -/

/-- C1 counterexample: after a tick on a state holding a frame, the
stored reference is still non-null — the tick closes the frame but does
not clear the reference back to null as the claim states. -/
theorem c1_tick_does_not_clear_cex :
    (onTimerTick { frame := some { id := 0, closed := false },
                   closedLog := [] }).frame ≠ none := by
  decide

/-- C1 (amended): on every tick, if the stored frame reference is
non-null the frame is closed, but the reference is retained (it now
points at the closed frame) rather than being cleared to null; if the
reference is null, the tick closes nothing and leaves the state
unchanged. -/
theorem c1_tick_closes_without_clearing (s : CaptureThreadState) :
    (∀ f, s.frame = some f →
      onTimerTick s = { frame := some { f with closed := true },
                        closedLog := f.id :: s.closedLog })
    ∧ (s.frame = none → onTimerTick s = s) := by
  constructor
  · intro f hf
    simp [onTimerTick, hf]
  · intro hf
    simp [onTimerTick, hf]

/-- C1 witness: a tick on a stored frame closes it and keeps the
reference; a tick on a null reference changes nothing — both via
`c1_tick_closes_without_clearing`. -/
theorem c1_tick_closes_without_clearing_w :
    onTimerTick { frame := some { id := 3, closed := false }, closedLog := [] }
      = { frame := some { id := 3, closed := true }, closedLog := [3] }
    ∧ onTimerTick { frame := none, closedLog := [7] }
      = { frame := none, closedLog := [7] } :=
  ⟨(c1_tick_closes_without_clearing _).1 { id := 3, closed := false } rfl,
   (c1_tick_closes_without_clearing _).2 rfl⟩

/-- C7: for every interval, the startup work item creates exactly one
frame pool and requests capacity exactly 1 buffer, and `timer.Start()`
occurs strictly before `session.StartCapture()` in the sequence. -/
theorem c7_pool_capacity_and_start_order (interval : Nat) :
    poolCapacities (startupTrace interval) = [1]
    ∧ ∃ i j, i < j
        ∧ (startupTrace interval).get? i = some .startTimer
        ∧ (startupTrace interval).get? j = some .startCapture := by
  exact ⟨rfl, 8, 9, by omega, rfl, rfl⟩

/-- C8: the shutdown work item performs, in order, stop timer, close
frame pool, close session, signal event; running it from any state
leaves the timer stopped, the pool and session closed, and the event
signaled, and the event is untouched by the first three operations (the
signal strictly follows the teardown steps); on the main thread, the
blocking wait on the event occurs strictly before the worker-queue
teardown (`ShutdownQueueAsync`). -/
theorem c8_shutdown_sequence (s : TeardownState) :
    shutdownTrace.get? 0 = some .stopTimer
    ∧ shutdownTrace.get? 1 = some .closeFramePool
    ∧ shutdownTrace.get? 2 = some .closeSession
    ∧ shutdownTrace.get? 3 = some .signalEvent
    ∧ shutdownTrace.length = 4
    ∧ (runShutdownOps s shutdownTrace).timerRunning = false
    ∧ (runShutdownOps s shutdownTrace).framePoolOpen = false
    ∧ (runShutdownOps s shutdownTrace).sessionOpen = false
    ∧ (runShutdownOps s shutdownTrace).shutdownEventSignaled = true
    ∧ (runShutdownOps s (shutdownTrace.take 3)).shutdownEventSignaled
        = s.shutdownEventSignaled
    ∧ ∃ i j, i < j
        ∧ mainShutdownTrace.get? i = some .waitForEvent
        ∧ mainShutdownTrace.get? j = some .awaitQueueShutdown := by
  exact ⟨rfl, rfl, rfl, rfl, rfl, rfl, rfl, rfl, rfl, rfl,
    2, 4, by omega, rfl, rfl⟩
